import Mathlib

/-!
Shallow embedding of `src/python/ray/tune/suggest/zoopt.py` (class `ZOOptSearch`,
a Ray Tune suggestion adapter around the zoopt black-box optimizer).

Python dictionaries are modelled as insertion-ordered association lists with
unique keys (`pydFind?` / `pydInsert` / `pydErase` mirror `d[k]`, `d[k] = v`,
`del d[k]`).  The wrapped zoopt optimizer (an external library: `SRacosTune`
with methods `suggest`, `complete`, and `Solution.get_x`) is modelled as an
explicit record of pure state-passing functions, so the adapter's delegating
calls stay visible.  Python exceptions raised part-way through a method are
modelled by returning an error flag together with the state as mutated up to
the raise point (Python's in-place dict mutations before a raise persist).
Float scores are modelled by `Rat`; the adapter only multiplies them by the
sign `±1`, which is exact in both models.
-/

set_option autoImplicit false

universe u v w

section PyDict

variable {κ : Type u} {α : Type v} [DecidableEq κ]

/-- Python `d[k]` as a total lookup: first (hence, for genuine dicts, only)
binding of `k`, or `none` (the `KeyError` case). -/
def pydFind? (k : κ) : List (κ × α) → Option α
  | [] => none
  | (k', v) :: rest => if k' = k then some v else pydFind? k rest

/-- Python `d[k] = v`: replace the value in place if `k` is already bound
(keeping its position, as Python dicts do), otherwise append the new binding. -/
def pydInsert (k : κ) (v : α) : List (κ × α) → List (κ × α)
  | [] => [(k, v)]
  | (k', v') :: rest =>
      if k' = k then (k, v) :: rest else (k', v') :: pydInsert k v rest

/-- Python `del d[k]`: drop the binding of `k` (the caller checks presence
separately, since `del` raises `KeyError` on a missing key). -/
def pydErase (k : κ) : List (κ × α) → List (κ × α)
  | [] => []
  | (k', v') :: rest => if k' = k then rest else (k', v') :: pydErase k rest

/-- Python `dict(pairs)`: fold the pairs into a fresh dict left to right. -/
def pydOfList (l : List (κ × α)) : List (κ × α) :=
  l.foldl (fun d kv => pydInsert kv.1 kv.2 d) []

end PyDict

/-- Trial identifiers.  Ray hands the adapter opaque identifiers; the code
uses both the raw value (as a dict key in `_live_trial_mapping`) and its
`str()` form (as the key in `solution_dict`), so the model keeps both kinds
of Python value that can index a dict here. -/
inductive TrialId where
  | int : Int → TrialId
  | str : String → TrialId
  deriving DecidableEq, Repr

/-- Python `str(trial_id)`. -/
def TrialId.strOf : TrialId → String
  | .int n => toString n
  | .str s => s

/-- Python `str.lower()`, as used in `_algo = algo.lower()` (character-wise
lowercasing; the algorithm names involved are ASCII). -/
def pyLower (s : String) : String :=
  ⟨s.data.map Char.toLower⟩

/-- Capability record of the wrapped zoopt optimizer, the external collaborator
of the adapter: `suggest() -> Solution|None`, `complete(solution, score) ->
best-so-far Solution|None` (both may mutate the optimizer, hence the explicit
state `σ`), and `Solution.get_x()` returning the coordinate vector. -/
structure ZooptLib (σ : Type u) (Sol : Type v) (V : Type w) where
  suggest : σ → Option Sol × σ
  complete : σ → Sol → Rat → Option Sol × σ
  solX : Sol → List V

/-- The adapter state: the fields `ZOOptSearch.__init__` establishes.
`σ` is the wrapped optimizer's state, `Sol` its solution-handle type, `V` the
coordinate-value type.  `use_early_stopped` mirrors `self._use_early_stopped`
set by the `SuggestionAlgorithm` superclass and read by `_process_result`. -/
structure ZOOptSearch (σ : Type u) (Sol : Type v) (V : Type w) where
  max_concurrent : Int
  metric : String
  metric_op : Rat
  live_trial_mapping : List (TrialId × List (String × V))
  dim_keys : List String
  optimizer : σ
  solution_dict : List (String × Sol)
  best_solution_list : List Sol
  use_early_stopped : Bool
  deriving Repr, DecidableEq

/-- Errors `__init__` can raise: failed `assert`s, and the `AttributeError`
from `algo.lower()` when `algo is None`. -/
inductive InitErr where
  | assertionError : InitErr
  | attributeError : InitErr
  deriving DecidableEq, Repr

/-- The `KeyError` raised by `solution_dict[str(trial_id)]`,
`result[self._metric]`, or `del self._live_trial_mapping[trial_id]`. -/
inductive CompleteErr where
  | keyError : CompleteErr
  deriving DecidableEq, Repr

namespace ZOOptSearch

variable {σ : Type u} {Sol : Type v} {V : Type w} {Dim : Type u}

/-- Embedding of `ZOOptSearch.__init__`.  The asserts run in source order
before anything else; `algo.lower()` raises `AttributeError` when `algo` is
missing.  `mkOpt` stands for the external construction
`SRacosTune(dimension=zoopt.Dimension2(_dim_list), parameter=zoopt.Parameter(budget=budget))`,
applied to the dim-dict values in declaration order and the budget; it is
only reached once every validation has passed.  `dim_dict` is an ordered
Python dict (unique keys); iterating it yields keys in declaration order. -/
def init (mkOpt : List Dim → Int → σ) (algo : Option String) (budget : Option Int)
    (dim_dict : Option (List (String × Dim))) (max_concurrent : Int)
    (metric : String) (mode : String) (use_early_stopped : Bool) :
    Except InitErr (ZOOptSearch σ Sol V) :=
  if budget = none then .error .assertionError
  else if dim_dict.isNone then .error .assertionError
  else if max_concurrent ≤ 0 then .error .assertionError
  else if ¬ (mode = "min" ∨ mode = "max") then .error .assertionError
  else
    match algo with
    | none => .error .attributeError
    | some a =>
      if ¬ (pyLower a = "asracos" ∨ pyLower a = "sracos") then .error .assertionError
      else
        match budget, dim_dict with
        | some b, some dd =>
            .ok
              { max_concurrent := max_concurrent
                metric := metric
                -- the mode assert above guarantees mode ∈ {"min", "max"}
                metric_op := if mode = "max" then (-1 : Rat) else 1
                live_trial_mapping := []
                dim_keys := dd.map Prod.fst
                optimizer := mkOpt (dd.map Prod.snd) b
                solution_dict := []
                best_solution_list := []
                use_early_stopped := use_early_stopped }
        | _, _ => .error .assertionError

/-- `ZOOptSearch._num_live_trials`. -/
def num_live_trials (s : ZOOptSearch σ Sol V) : Nat :=
  s.live_trial_mapping.length

/-- Embedding of `ZOOptSearch.suggest`.  Returns the value Python returns
(`None` or a deep copy of the new configuration — a fresh value either way in
this model) together with the post-call adapter state. -/
def suggest (lib : ZooptLib σ Sol V) (s : ZOOptSearch σ Sol V) (trial_id : TrialId) :
    Option (List (String × V)) × ZOOptSearch σ Sol V :=
  if (s.num_live_trials : Int) ≥ s.max_concurrent then (none, s)
  else
    match lib.suggest s.optimizer with
    | (none, opt') => (none, { s with optimizer := opt' })
    | (some sol, opt') =>
      let new_trial := pydOfList (s.dim_keys.zip (lib.solX sol))
      (some new_trial,
        { s with
            optimizer := opt'
            solution_dict := pydInsert trial_id.strOf sol s.solution_dict
            live_trial_mapping := pydInsert trial_id new_trial s.live_trial_mapping })

/-- `ZOOptSearch.on_trial_result`: `pass`. -/
def on_trial_result (s : ZOOptSearch σ Sol V) (_trial_id : TrialId)
    (_result : Option (List (String × Rat))) : ZOOptSearch σ Sol V :=
  s

/-- `ZOOptSearch._process_result`: both branches of its body fall through
with no state change; it exists as an extension hook only. -/
def process_result (s : ZOOptSearch σ Sol V) (_trial_id : TrialId)
    (_result : List (String × Rat)) (_early_terminated : Bool) :
    ZOOptSearch σ Sol V :=
  s

/-- The closing `del self._live_trial_mapping[trial_id]` of
`on_trial_complete`: `KeyError` (state untouched) on a missing key. -/
def delLive (s : ZOOptSearch σ Sol V) (trial_id : TrialId) :
    Option CompleteErr × ZOOptSearch σ Sol V :=
  if (pydFind? trial_id s.live_trial_mapping).isSome then
    (none, { s with live_trial_mapping := pydErase trial_id s.live_trial_mapping })
  else (some .keyError, s)

/-- Embedding of `ZOOptSearch.on_trial_complete`.  The first component is
`some .keyError` when Python raises; the second is the adapter state as
mutated up to the raise point (or to the end of the call).  `if result:` is
false for `None` and for an empty dict. -/
def on_trial_complete (lib : ZooptLib σ Sol V) (s : ZOOptSearch σ Sol V)
    (trial_id : TrialId) (result : Option (List (String × Rat)))
    (_error : Bool) (early_terminated : Bool) :
    Option CompleteErr × ZOOptSearch σ Sol V :=
  match result with
  | none => s.delLive trial_id
  | some r =>
    if r.isEmpty then s.delLive trial_id
    else
      match pydFind? trial_id.strOf s.solution_dict with
      | none => (some .keyError, s)
      | some sol =>
        match pydFind? s.metric r with
        | none => (some .keyError, s)
        | some v =>
          match lib.complete s.optimizer sol (s.metric_op * v) with
          | (some best, opt') =>
            ({ s with
                optimizer := opt'
                best_solution_list :=
                  s.best_solution_list ++ [best] }.process_result
              trial_id r early_terminated).delLive trial_id
          | (none, opt') =>
            ({ s with optimizer := opt' }.process_result
              trial_id r early_terminated).delLive trial_id

/-- Embedding of `ZOOptSearch.save`: pickle the whole optimizer object to
`checkpoint_dir`.  The file system is a map from paths to stored blobs, and
pickling is modelled as faithful whole-object serialization (the blob at the
path is the optimizer value itself). -/
def save (s : ZOOptSearch σ Sol V) (fs : String → Option σ) (checkpoint_dir : String) :
    String → Option σ :=
  fun p => if p = checkpoint_dir then some s.optimizer else fs p

/-- Embedding of `ZOOptSearch.restore`: unpickle the blob at `checkpoint_dir`
and replace `self.optimizer` wholesale.  `none` when the path has no blob
(Python's `IOError`). -/
def restore (s : ZOOptSearch σ Sol V) (fs : String → Option σ) (checkpoint_dir : String) :
    Option (ZOOptSearch σ Sol V) :=
  (fs checkpoint_dir).map fun o => { s with optimizer := o }

/-- A serial run of `suggest` calls, one per identifier, that is required to
succeed at every step (used to phrase "after C successful suggest calls"). -/
def suggestMany (lib : ZooptLib σ Sol V) (s : ZOOptSearch σ Sol V) :
    List TrialId → Option (ZOOptSearch σ Sol V)
  | [] => some s
  | t :: ts =>
    match s.suggest lib t with
    | (some _, s') => s'.suggestMany lib ts
    | (none, _) => none

/-- The sequence of values a serial run of `suggest` calls returns (used to
phrase "produces the same subsequent suggestion sequence"). -/
def suggestSeq (lib : ZooptLib σ Sol V) (s : ZOOptSearch σ Sol V) :
    List TrialId → List (Option (List (String × V)))
  | [] => []
  | t :: ts =>
    let r := s.suggest lib t
    r.1 :: r.2.suggestSeq lib ts

end ZOOptSearch

/-- A deterministic concrete optimizer over `Nat` state used to instantiate
the generic theorems: suggestion `n` has coordinates `[n, n + 1]`. -/
def natLib : ZooptLib Nat Nat Nat where
  suggest := fun n => (some n, n + 1)
  complete := fun n _ _ => (some n, n + 1)
  solX := fun n => [n, n + 1]

/-- A test double that records every score passed to `complete` (the spec's
"test double recording the argument sign"). -/
def recLib : ZooptLib (List Rat) Unit Unit where
  suggest := fun l => (none, l)
  complete := fun l _ score => (none, l ++ [score])
  solX := fun _ => []

/-- Concrete stand-in for the external `SRacosTune` construction. -/
def mkOptNat : List Nat → Int → Nat := fun _ _ => 0

/-- A second stand-in, used to show failing construction never builds one. -/
def mkOptNat' : List Nat → Int → Nat := fun _ _ => 7

/-- A saturated adapter: one live trial against a concurrency cap of 1. -/
def sCap : ZOOptSearch Nat Nat Nat where
  max_concurrent := 1
  metric := "m"
  metric_op := 1
  live_trial_mapping := [(TrialId.int 0, [("x", 5)])]
  dim_keys := ["x"]
  optimizer := 3
  solution_dict := [("0", 5)]
  best_solution_list := []
  use_early_stopped := false

/-- A fresh adapter with concurrency cap 2 and two dimensions. -/
def sTwo : ZOOptSearch Nat Nat Nat where
  max_concurrent := 2
  metric := "m"
  metric_op := 1
  live_trial_mapping := []
  dim_keys := ["x", "y"]
  optimizer := 0
  solution_dict := []
  best_solution_list := []
  use_early_stopped := false

/-- The state `sTwo` reaches after two successful `suggest` calls with
`natLib` for trials `int 0` and `int 1`. -/
def sTwoAfter : ZOOptSearch Nat Nat Nat where
  max_concurrent := 2
  metric := "m"
  metric_op := 1
  live_trial_mapping :=
    [(TrialId.int 0, [("x", 0), ("y", 1)]), (TrialId.int 1, [("x", 1), ("y", 2)])]
  dim_keys := ["x", "y"]
  optimizer := 2
  solution_dict := [("0", 0), ("1", 1)]
  best_solution_list := []
  use_early_stopped := false

/-- An adapter with a single live trial `int 0` and its recorded solution. -/
def sOneLive : ZOOptSearch Nat Nat Nat where
  max_concurrent := 10
  metric := "m"
  metric_op := 1
  live_trial_mapping := [(TrialId.int 0, [("x", 0)])]
  dim_keys := ["x"]
  optimizer := 1
  solution_dict := [("0", 0)]
  best_solution_list := []
  use_early_stopped := false

/-- A mode="max" adapter (metric sign −1) over the recording test double. -/
def sMax : ZOOptSearch (List Rat) Unit Unit where
  max_concurrent := 10
  metric := "m"
  metric_op := -1
  live_trial_mapping := [(TrialId.int 0, [("x", ())])]
  dim_keys := ["x"]
  optimizer := []
  solution_dict := [("0", ())]
  best_solution_list := []
  use_early_stopped := false

/-- The same adapter as `sMax` except mode="min" (metric sign +1). -/
def sMin : ZOOptSearch (List Rat) Unit Unit :=
  { sMax with metric_op := 1 }

/-- The state `ZOOptSearch.init` produces for mode="max" at the concrete
arguments used in the witnesses. -/
def sInitMax : ZOOptSearch Nat Nat Nat where
  max_concurrent := 2
  metric := "m"
  metric_op := -1
  live_trial_mapping := []
  dim_keys := ["x"]
  optimizer := 0
  solution_dict := []
  best_solution_list := []
  use_early_stopped := false

/-- The state `ZOOptSearch.init` produces for mode="min" at the concrete
arguments used in the witnesses. -/
def sInitMin : ZOOptSearch Nat Nat Nat where
  max_concurrent := 2
  metric := "m"
  metric_op := 1
  live_trial_mapping := []
  dim_keys := ["x"]
  optimizer := 0
  solution_dict := []
  best_solution_list := []
  use_early_stopped := false

/-- A concrete file-system map holding one pickled blob at "ckpt". -/
def fsOne : String → Option Nat :=
  fun p => if p = "ckpt" then some 42 else none

/-- A fresh adapter used for the string-key collision scenario. -/
def sColl0 : ZOOptSearch Nat Nat Nat where
  max_concurrent := 5
  metric := "m"
  metric_op := 1
  live_trial_mapping := []
  dim_keys := ["h", "w"]
  optimizer := 0
  solution_dict := []
  best_solution_list := []
  use_early_stopped := false

/-- `sColl0` after `suggest` for trial `int 1` with `natLib`. -/
def sColl1 : ZOOptSearch Nat Nat Nat where
  max_concurrent := 5
  metric := "m"
  metric_op := 1
  live_trial_mapping := [(TrialId.int 1, [("h", 0), ("w", 1)])]
  dim_keys := ["h", "w"]
  optimizer := 1
  solution_dict := [("1", 0)]
  best_solution_list := []
  use_early_stopped := false

/-- `sColl1` after `suggest` for trial `str "1"` with `natLib`: both trials
are live, but `solution_dict` has a single slot under the shared key "1". -/
def sColl2 : ZOOptSearch Nat Nat Nat where
  max_concurrent := 5
  metric := "m"
  metric_op := 1
  live_trial_mapping :=
    [(TrialId.int 1, [("h", 0), ("w", 1)]), (TrialId.str "1", [("h", 1), ("w", 2)])]
  dim_keys := ["h", "w"]
  optimizer := 2
  solution_dict := [("1", 1)]
  best_solution_list := []
  use_early_stopped := false

section PyDictLemmas

variable {κ : Type u} {α : Type v} [DecidableEq κ]

theorem pydFind?_insert (d : List (κ × α)) (k k' : κ) (v : α) :
    pydFind? k' (pydInsert k v d) = if k = k' then some v else pydFind? k' d := by
  induction d with
  | nil => simp [pydInsert, pydFind?]
  | cons p rest ih =>
    obtain ⟨k₀, v₀⟩ := p
    by_cases h0 : k₀ = k
    · subst h0
      by_cases h1 : k₀ = k'
      · subst h1
        simp [pydInsert, pydFind?]
      · simp [pydInsert, pydFind?, h1]
    · by_cases h1 : k₀ = k'
      · subst h1
        have hkk : ¬ k = k₀ := fun hh => h0 hh.symm
        simp [pydInsert, pydFind?, h0, hkk]
      · simp [pydInsert, pydFind?, h0, h1, ih]

theorem pydInsert_fresh (d : List (κ × α)) (k : κ) (v : α)
    (h : pydFind? k d = none) : pydInsert k v d = d ++ [(k, v)] := by
  induction d with
  | nil => rfl
  | cons p rest ih =>
    obtain ⟨k₀, v₀⟩ := p
    rw [pydFind?] at h
    split at h
    · exact absurd h (by simp)
    · rename_i hne
      simp [pydInsert, hne, ih h]

theorem pydInsert_length (d : List (κ × α)) (k : κ) (v : α) :
    (pydInsert k v d).length =
      if (pydFind? k d).isSome then d.length else d.length + 1 := by
  induction d with
  | nil => simp [pydInsert, pydFind?]
  | cons p rest ih =>
    obtain ⟨k₀, v₀⟩ := p
    by_cases h0 : k₀ = k
    · subst h0
      simp [pydInsert, pydFind?]
    · simp only [pydInsert, pydFind?, if_neg h0, List.length_cons, ih]
      split <;> rfl

theorem pydErase_length (d : List (κ × α)) (k : κ)
    (h : (pydFind? k d).isSome) : (pydErase k d).length + 1 = d.length := by
  induction d with
  | nil => simp [pydFind?] at h
  | cons p rest ih =>
    obtain ⟨k₀, v₀⟩ := p
    by_cases h0 : k₀ = k
    · subst h0
      simp [pydErase]
    · rw [pydFind?, if_neg h0] at h
      simp [pydErase, h0, ih h]

theorem pydFind?_eq_none (d : List (κ × α)) (k : κ)
    (h : k ∉ d.map Prod.fst) : pydFind? k d = none := by
  induction d with
  | nil => rfl
  | cons p rest ih =>
    obtain ⟨k₀, v₀⟩ := p
    simp only [List.map_cons, List.mem_cons] at h
    push_neg at h
    rw [pydFind?, if_neg (fun hh => h.1 hh.symm)]
    exact ih h.2

theorem foldl_pydInsert_fresh :
    ∀ (l acc : List (κ × α)), (acc.map Prod.fst ++ l.map Prod.fst).Nodup →
      l.foldl (fun d kv => pydInsert kv.1 kv.2 d) acc = acc ++ l
  | [], acc, _ => by simp
  | (k, v) :: l, acc, h => by
    have hk : k ∉ acc.map Prod.fst := by
      intro hmem
      exact (List.nodup_append.mp h).2.2 hmem (by simp)
    have hstep : pydInsert k v acc = acc ++ [(k, v)] :=
      pydInsert_fresh acc k v (pydFind?_eq_none acc k hk)
    have hnext : ((acc ++ [(k, v)]).map Prod.fst ++ l.map Prod.fst).Nodup := by
      simpa [List.append_assoc] using h
    calc ((k, v) :: l).foldl (fun d kv => pydInsert kv.1 kv.2 d) acc
        = l.foldl (fun d kv => pydInsert kv.1 kv.2 d) (acc ++ [(k, v)]) := by
          rw [List.foldl_cons, hstep]
      _ = (acc ++ [(k, v)]) ++ l := foldl_pydInsert_fresh l (acc ++ [(k, v)]) hnext
      _ = acc ++ ((k, v) :: l) := by simp

theorem pydOfList_nodup (l : List (κ × α)) (h : (l.map Prod.fst).Nodup) :
    pydOfList l = l := by
  unfold pydOfList
  simpa using foldl_pydInsert_fresh l [] (by simpa using h)

theorem pydFind?_zip_get {β : Type w} :
    ∀ (ks : List κ) (xs : List β) (i : Nat) (hk : i < ks.length)
      (hx : i < xs.length), ks.Nodup →
      pydFind? (ks.get ⟨i, hk⟩) (ks.zip xs) = some (xs.get ⟨i, hx⟩)
  | [], _, i, hk, _, _ => absurd hk (Nat.not_lt_zero i)
  | _ :: _, [], _, _, hx, _ => absurd hx (Nat.not_lt_zero _)
  | k :: ks, x :: xs, 0, _, _, _ => by simp [pydFind?]
  | k :: ks, x :: xs, i + 1, hk, hx, hnd => by
    have hik : i < ks.length := Nat.lt_of_succ_lt_succ hk
    have hix : i < xs.length := Nat.lt_of_succ_lt_succ hx
    have hmem : ks.get ⟨i, hik⟩ ∈ ks := List.get_mem ks i hik
    have hne : ¬ k = ks.get ⟨i, hik⟩ := fun hh =>
      (List.nodup_cons.mp hnd).1 (hh ▸ hmem)
    have hcons : (k :: ks).zip (x :: xs) = (k, x) :: ks.zip xs := rfl
    have hget : ((k :: ks).get ⟨i + 1, hk⟩) = ks.get ⟨i, hik⟩ := rfl
    rw [hget, hcons, pydFind?, if_neg hne]
    exact pydFind?_zip_get ks xs i hik hix (List.nodup_cons.mp hnd).2

end PyDictLemmas

section AdapterLemmas

variable {σ : Type u} {Sol : Type v} {V : Type w}

theorem delLive_eq_ite (s : ZOOptSearch σ Sol V) (t : TrialId) :
    s.delLive t =
      if (pydFind? t s.live_trial_mapping).isSome then
        (none, { s with live_trial_mapping := pydErase t s.live_trial_mapping })
      else (some .keyError, s) := rfl

theorem delLive_optimizer (s : ZOOptSearch σ Sol V) (t : TrialId) :
    (s.delLive t).2.optimizer = s.optimizer := by
  rw [delLive_eq_ite]
  split <;> rfl

theorem delLive_solution_dict (s : ZOOptSearch σ Sol V) (t : TrialId) :
    (s.delLive t).2.solution_dict = s.solution_dict := by
  rw [delLive_eq_ite]
  split <;> rfl

theorem delLive_dim_keys (s : ZOOptSearch σ Sol V) (t : TrialId) :
    (s.delLive t).2.dim_keys = s.dim_keys := by
  rw [delLive_eq_ite]
  split <;> rfl

theorem delLive_of_isSome (s : ZOOptSearch σ Sol V) (t : TrialId)
    (h : (pydFind? t s.live_trial_mapping).isSome) :
    (s.delLive t).1 = none ∧
    (s.delLive t).2.num_live_trials + 1 = s.num_live_trials := by
  rw [delLive_eq_ite, if_pos h]
  exact ⟨rfl, pydErase_length s.live_trial_mapping t h⟩

theorem suggest_some_inv (lib : ZooptLib σ Sol V) (s : ZOOptSearch σ Sol V)
    (t : TrialId) (c : List (String × V)) (s' : ZOOptSearch σ Sol V)
    (h : s.suggest lib t = (some c, s')) :
    ¬ ((s.num_live_trials : Int) ≥ s.max_concurrent) ∧
    ∃ sol opt', lib.suggest s.optimizer = (some sol, opt') ∧
      c = pydOfList (s.dim_keys.zip (lib.solX sol)) ∧
      s' = { s with
              optimizer := opt'
              solution_dict := pydInsert t.strOf sol s.solution_dict
              live_trial_mapping := pydInsert t c s.live_trial_mapping } := by
  unfold ZOOptSearch.suggest at h
  split at h
  · exact absurd h (by simp)
  · rename_i hcap
    refine ⟨hcap, ?_⟩
    rcases hr : lib.suggest s.optimizer with ⟨sol?, opt'⟩
    rw [hr] at h
    cases sol? with
    | none => exact absurd h (by simp)
    | some sol =>
      simp only [Prod.mk.injEq, Option.some.injEq] at h
      exact ⟨sol, opt', rfl, h.1.symm, by rw [← h.2, ← h.1]⟩

theorem suggest_frame (lib : ZooptLib σ Sol V) (s : ZOOptSearch σ Sol V)
    (t : TrialId) :
    (s.suggest lib t).2.max_concurrent = s.max_concurrent ∧
    (s.suggest lib t).2.dim_keys = s.dim_keys ∧
    (s.suggest lib t).2.metric = s.metric ∧
    (s.suggest lib t).2.metric_op = s.metric_op := by
  unfold ZOOptSearch.suggest
  split
  · exact ⟨rfl, rfl, rfl, rfl⟩
  · rcases hr : lib.suggest s.optimizer with ⟨sol?, opt'⟩
    cases sol? <;> exact ⟨rfl, rfl, rfl, rfl⟩

theorem suggestMany_keys (lib : ZooptLib σ Sol V) (ts : List TrialId) :
    ∀ (s s' : ZOOptSearch σ Sol V),
      ts.Nodup → (∀ u ∈ ts, pydFind? u s.live_trial_mapping = none) →
      s.suggestMany lib ts = some s' →
      s'.max_concurrent = s.max_concurrent ∧
      s'.live_trial_mapping.map Prod.fst =
        s.live_trial_mapping.map Prod.fst ++ ts := by
  induction ts with
  | nil =>
    intro s s' _ _ h
    simp only [ZOOptSearch.suggestMany, Option.some.injEq] at h
    subst h
    simp
  | cons t ts ih =>
    intro s s' hnd hfresh h
    rw [ZOOptSearch.suggestMany] at h
    rcases hs : s.suggest lib t with ⟨c?, s₁⟩
    rw [hs] at h
    cases c? with
    | none => exact absurd h (by simp)
    | some c =>
      obtain ⟨hcap, sol, opt', hlib, hc, hs₁⟩ := suggest_some_inv lib s t c s₁ hs
      have hfresh_t : pydFind? t s.live_trial_mapping = none := hfresh t (by simp)
      have ht_not : t ∉ ts := (List.nodup_cons.mp hnd).1
      subst hs₁
      have hfresh' :
          ∀ u ∈ ts,
            pydFind? u (pydInsert t c s.live_trial_mapping) = none := by
        intro u hu
        have hut : ¬ t = u := fun hh => ht_not (hh ▸ hu)
        rw [pydFind?_insert, if_neg hut]
        exact hfresh u (by simp [hu])
      obtain ⟨hmax, hkeys⟩ := ih _ s' (List.nodup_cons.mp hnd).2 hfresh' h
      refine ⟨hmax, ?_⟩
      rw [hkeys, pydInsert_fresh _ _ _ hfresh_t]
      simp

theorem on_trial_complete_optimizer_eq (lib : ZooptLib σ Sol V)
    (s : ZOOptSearch σ Sol V) (t : TrialId) (r : List (String × Rat))
    (sol : Sol) (v : Rat) (e et : Bool)
    (hr : r.isEmpty = false)
    (hsol : pydFind? t.strOf s.solution_dict = some sol)
    (hv : pydFind? s.metric r = some v) :
    (s.on_trial_complete lib t (some r) e et).2.optimizer =
      (lib.complete s.optimizer sol (s.metric_op * v)).2 := by
  rcases hc : lib.complete s.optimizer sol (s.metric_op * v) with ⟨best?, opt'⟩
  simp only [ZOOptSearch.on_trial_complete, hr, Bool.false_eq_true, if_false,
    hsol, hv, hc]
  cases best? <;>
    simp [ZOOptSearch.process_result, delLive_optimizer, hc]

end AdapterLemmas

/-- C1: whenever the number of live trials is at least `max_concurrent`,
`suggest` returns `None` without consulting the wrapped optimizer and without
changing any adapter state (the result is `(none, s)` for every optimizer
`lib`); moreover, after `C` successful `suggest` calls (distinct trial ids)
on an adapter constructed with cap `C` and no completions in between, the
next `suggest` call returns `None` and leaves the state unchanged, again for
every optimizer. -/
theorem c1_capacity_gate {σ : Type u} {Sol : Type v} {V : Type w} :
    (∀ (lib : ZooptLib σ Sol V) (s : ZOOptSearch σ Sol V) (t : TrialId),
        (s.num_live_trials : Int) ≥ s.max_concurrent →
        s.suggest lib t = (none, s)) ∧
    (∀ (lib lib' : ZooptLib σ Sol V) (s₀ s' : ZOOptSearch σ Sol V)
        (ts : List TrialId) (t : TrialId),
        ts.Nodup → s₀.live_trial_mapping = [] →
        s₀.max_concurrent = (ts.length : Int) →
        s₀.suggestMany lib ts = some s' →
        s'.suggest lib' t = (none, s')) := by
  constructor
  · intro lib s t h
    unfold ZOOptSearch.suggest
    rw [if_pos h]
  · intro lib lib' s₀ s' ts t hnd hlive hcap hrun
    have hfresh : ∀ u ∈ ts, pydFind? u s₀.live_trial_mapping = none := by
      intro u _
      rw [hlive]
      rfl
    obtain ⟨hmax, hkeys⟩ := suggestMany_keys lib ts s₀ s' hnd hfresh hrun
    have hlen : s'.num_live_trials = ts.length := by
      have hlen' := congrArg List.length hkeys
      simpa [ZOOptSearch.num_live_trials, hlive] using hlen'
    have hge : (s'.num_live_trials : Int) ≥ s'.max_concurrent := by
      rw [hlen, hmax, hcap]
    unfold ZOOptSearch.suggest
    rw [if_pos hge]

/-- Witness for C1 at concrete inputs: a saturated adapter (cap 1, one live
trial) refuses a new suggestion unchanged, and a cap-2 adapter after two
successful suggestions refuses the third. -/
theorem c1_capacity_gate_witness :
    ((sCap.num_live_trials : Int) ≥ sCap.max_concurrent ∧
      sCap.suggest natLib (.int 1) = (none, sCap)) ∧
    ([TrialId.int 0, TrialId.int 1].Nodup ∧
      sTwo.live_trial_mapping = [] ∧
      sTwo.max_concurrent = (([TrialId.int 0, TrialId.int 1] : List TrialId).length : Int) ∧
      sTwo.suggestMany natLib [TrialId.int 0, TrialId.int 1] = some sTwoAfter ∧
      sTwoAfter.suggest natLib (.int 2) = (none, sTwoAfter)) :=
  ⟨⟨by decide, c1_capacity_gate.1 natLib sCap (.int 1) (by decide)⟩,
   ⟨by decide, rfl, by decide, by decide,
    c1_capacity_gate.2 natLib natLib sTwo sTwoAfter [TrialId.int 0, TrialId.int 1]
      (.int 2) (by decide) rfl (by decide) (by decide)⟩⟩

/-- C2 counterexample: a concrete completion with a present result succeeds
(`None` error flag), removes the trial from the live-trial mapping, and yet
the trial's solution-handle record is still present in `solution_dict`
afterwards — `on_trial_complete` never deletes from `solution_dict`, so the
claim that both records are removed is false. -/
theorem c2_destroy_both_counterexample :
    (sOneLive.on_trial_complete natLib (.int 0) (some [("m", 2)]) false false).1
        = none ∧
    pydFind? (TrialId.int 0)
        (sOneLive.on_trial_complete natLib (.int 0) (some [("m", 2)])
          false false).2.live_trial_mapping = none ∧
    pydFind? (TrialId.int 0).strOf
        (sOneLive.on_trial_complete natLib (.int 0) (some [("m", 2)])
          false false).2.solution_dict = some 0 := by
  decide

/-- C2 amended: `on_trial_complete` never touches `solution_dict` (the
trial_id → solution-handle record survives every completion), and when the
call raises no lookup error the trial_id → configuration record is destroyed
(the live-trial mapping loses the `trial_id` binding). -/
theorem c2_amended_config_record_only {σ : Type u} {Sol : Type v} {V : Type w} :
    ∀ (lib : ZooptLib σ Sol V) (s : ZOOptSearch σ Sol V) (t : TrialId)
      (result : Option (List (String × Rat))) (e et : Bool),
      (s.on_trial_complete lib t result e et).2.solution_dict = s.solution_dict ∧
      ((s.on_trial_complete lib t result e et).1 = none →
        (s.on_trial_complete lib t result e et).2.live_trial_mapping =
          pydErase t s.live_trial_mapping) := by
  intro lib s t result e et
  have hdel : ∀ (x : ZOOptSearch σ Sol V),
      (x.delLive t).2.solution_dict = x.solution_dict ∧
      ((x.delLive t).1 = none →
        (x.delLive t).2.live_trial_mapping = pydErase t x.live_trial_mapping) := by
    intro x
    rw [delLive_eq_ite]
    split
    · exact ⟨rfl, fun _ => rfl⟩
    · exact ⟨rfl, fun h => absurd h (by simp)⟩
  cases result with
  | none => exact hdel s
  | some r =>
    cases hre : r.isEmpty with
    | true =>
      simp only [ZOOptSearch.on_trial_complete, hre, if_true]
      exact hdel s
    | false =>
      cases hsol : pydFind? t.strOf s.solution_dict with
      | none =>
        simp [ZOOptSearch.on_trial_complete, hre, hsol]
      | some sol =>
        cases hv : pydFind? s.metric r with
        | none =>
          simp [ZOOptSearch.on_trial_complete, hre, hsol, hv]
        | some v =>
          rcases hc : lib.complete s.optimizer sol (s.metric_op * v) with ⟨best?, opt'⟩
          cases best? <;>
          · simp only [ZOOptSearch.on_trial_complete, hre, Bool.false_eq_true,
              if_false, hsol, hv, hc]
            exact hdel _

/-- Witness for the amended C2 at a concrete successful completion. -/
theorem c2_amended_config_record_only_witness :
    (sOneLive.on_trial_complete natLib (.int 0) (some [("m", 2)])
        false false).2.solution_dict = sOneLive.solution_dict ∧
    (sOneLive.on_trial_complete natLib (.int 0) (some [("m", 2)])
        false false).2.live_trial_mapping =
      pydErase (TrialId.int 0) sOneLive.live_trial_mapping :=
  ⟨(c2_amended_config_record_only natLib sOneLive (.int 0) (some [("m", 2)])
      false false).1,
   (c2_amended_config_record_only natLib sOneLive (.int 0) (some [("m", 2)])
      false false).2 (by decide)⟩

/-- C5: when the reported result is falsy (`None` or the empty dict),
`on_trial_complete` is exactly the live-trial deletion: the optimizer's
`complete` is never invoked and the best-solution log and every other field
are untouched (the right-hand side does not depend on `lib` at all); the
only state change is removing `trial_id` from the live-trial mapping
(`KeyError` with no state change when it is not live). -/
theorem c5_falsy_result_skips_feedback {σ : Type u} {Sol : Type v} {V : Type w} :
    ∀ (lib : ZooptLib σ Sol V) (s : ZOOptSearch σ Sol V) (t : TrialId)
      (result : Option (List (String × Rat))) (e et : Bool),
      (result = none ∨ result = some ([] : List (String × Rat))) →
      s.on_trial_complete lib t result e et =
        (if (pydFind? t s.live_trial_mapping).isSome then
          (none, { s with live_trial_mapping := pydErase t s.live_trial_mapping })
        else (some .keyError, s)) := by
  intro lib s t result e et h
  rcases h with h | h <;> subst h
  · exact delLive_eq_ite s t
  · exact delLive_eq_ite s t

/-- Witness for C5: completing the live trial of `sOneLive` with `result=None`
removes only its live-mapping entry. -/
theorem c5_falsy_result_skips_feedback_witness :
    sOneLive.on_trial_complete natLib (.int 0) none false false =
      (if (pydFind? (TrialId.int 0) sOneLive.live_trial_mapping).isSome then
        (none,
          { sOneLive with
              live_trial_mapping :=
                pydErase (TrialId.int 0) sOneLive.live_trial_mapping })
      else (some .keyError, sOneLive)) :=
  c5_falsy_result_skips_feedback natLib sOneLive (.int 0) none false false
    (Or.inl rfl)

/-- C6 counterexample: the trial `int 0` is live in `sOneLive`, yet
`on_trial_complete` with a present result that lacks the metric key raises
`KeyError` at `result[self._metric]` before reaching the `del`, so the trial
is NOT removed (`num_live_trials` is unchanged) — refuting "every call
removes trial_id if it is currently live". -/
theorem c6_always_removes_counterexample :
    (pydFind? (TrialId.int 0) sOneLive.live_trial_mapping).isSome ∧
    (sOneLive.on_trial_complete natLib (.int 0) (some [("nometric", 1)])
        false false).1 = some .keyError ∧
    (sOneLive.on_trial_complete natLib (.int 0) (some [("nometric", 1)])
        false false).2.num_live_trials = sOneLive.num_live_trials := by
  decide

/-- C6 amended: `on_trial_complete` removes a live `trial_id` (decreasing
`num_live_trials` by exactly one, with no error) provided the result is falsy
or both the solution-handle and metric lookups succeed; when a truthy
result's lookup fails the `KeyError` propagates before the removal; and for a
`trial_id` that is not live the call always raises a lookup error, never
swallowed, regardless of the result/error/early_terminated arguments. -/
theorem c6_amended_removal_and_lookup_error {σ : Type u} {Sol : Type v} {V : Type w} :
    (∀ (lib : ZooptLib σ Sol V) (s : ZOOptSearch σ Sol V) (t : TrialId)
        (result : Option (List (String × Rat))) (e et : Bool),
        (pydFind? t s.live_trial_mapping).isSome →
        (result = none ∨ result = some ([] : List (String × Rat)) ∨
          (∃ r sol v, result = some r ∧ r.isEmpty = false ∧
            pydFind? t.strOf s.solution_dict = some sol ∧
            pydFind? s.metric r = some v)) →
        (s.on_trial_complete lib t result e et).1 = none ∧
        (s.on_trial_complete lib t result e et).2.num_live_trials + 1 =
          s.num_live_trials) ∧
    (∀ (lib : ZooptLib σ Sol V) (s : ZOOptSearch σ Sol V) (t : TrialId)
        (result : Option (List (String × Rat))) (e et : Bool),
        pydFind? t s.live_trial_mapping = none →
        (s.on_trial_complete lib t result e et).1 = some .keyError) := by
  constructor
  · intro lib s t result e et hlive hcase
    rcases hcase with h | h | ⟨r, sol, v, hres, hre, hsol, hv⟩
    · subst h
      exact delLive_of_isSome s t hlive
    · subst h
      exact delLive_of_isSome s t hlive
    · subst hres
      rcases hc : lib.complete s.optimizer sol (s.metric_op * v) with ⟨best?, opt'⟩
      cases best? <;>
      · simp only [ZOOptSearch.on_trial_complete, hre, Bool.false_eq_true,
          if_false, hsol, hv, hc]
        exact delLive_of_isSome _ t hlive
  · intro lib s t result e et hdead
    have hnot : ∀ (x : ZOOptSearch σ Sol V),
        x.live_trial_mapping = s.live_trial_mapping →
        (x.delLive t).1 = some .keyError := by
      intro x hx
      rw [delLive_eq_ite, hx, hdead]
      rfl
    cases result with
    | none => exact hnot s rfl
    | some r =>
      cases hre : r.isEmpty with
      | true =>
        simp only [ZOOptSearch.on_trial_complete, hre, if_true]
        exact hnot s rfl
      | false =>
        cases hsol : pydFind? t.strOf s.solution_dict with
        | none =>
          simp [ZOOptSearch.on_trial_complete, hre, hsol]
        | some sol =>
          cases hv : pydFind? s.metric r with
          | none =>
            simp [ZOOptSearch.on_trial_complete, hre, hsol, hv]
          | some v =>
            rcases hc : lib.complete s.optimizer sol (s.metric_op * v) with ⟨best?, opt'⟩
            cases best? <;>
            · simp only [ZOOptSearch.on_trial_complete, hre, Bool.false_eq_true,
                if_false, hsol, hv, hc]
              exact hnot _ rfl

/-- Witness for the amended C6: completing the live trial removes it; a
never-issued trial identifier raises the lookup error. -/
theorem c6_amended_removal_and_lookup_error_witness :
    ((sOneLive.on_trial_complete natLib (.int 0) none false false).1 = none ∧
      (sOneLive.on_trial_complete natLib (.int 0) none
          false false).2.num_live_trials + 1 = sOneLive.num_live_trials) ∧
    (sOneLive.on_trial_complete natLib (.int 99) none false false).1 =
      some .keyError :=
  ⟨(c6_amended_removal_and_lookup_error).1 natLib sOneLive (.int 0) none
      false false (by decide) (Or.inl rfl),
   (c6_amended_removal_and_lookup_error).2 natLib sOneLive (.int 99) none
      false false (by decide)⟩

/-- C3: the adapter fixes the metric-sign multiplier at construction (−1 for
mode="max", +1 for mode="min"); with a truthy result and successful lookups,
`on_trial_complete` hands the optimizer's `complete` exactly the signed score
`metric_op * result[metric]` (the post-call optimizer state is that of the
`complete` call at that score); and over the recording test double `recLib`,
two adapters identical except for the sign (−1 vs +1) record exactly negated
scores, `[-v]` versus `[v]`, for the same raw result value `v`. -/
theorem c3_metric_sign (σ : Type u) (Sol : Type v) (V : Type w) (Dim : Type u) :
    (∀ (mkOpt : List Dim → Int → σ) (algo : Option String) (budget : Option Int)
        (dd : Option (List (String × Dim))) (mc : Int) (metric : String)
        (ue : Bool) (s : ZOOptSearch σ Sol V),
        ZOOptSearch.init mkOpt algo budget dd mc metric "max" ue = .ok s →
        s.metric_op = -1) ∧
    (∀ (mkOpt : List Dim → Int → σ) (algo : Option String) (budget : Option Int)
        (dd : Option (List (String × Dim))) (mc : Int) (metric : String)
        (ue : Bool) (s : ZOOptSearch σ Sol V),
        ZOOptSearch.init mkOpt algo budget dd mc metric "min" ue = .ok s →
        s.metric_op = 1) ∧
    (∀ (lib : ZooptLib σ Sol V) (s : ZOOptSearch σ Sol V) (t : TrialId)
        (r : List (String × Rat)) (sol : Sol) (v : Rat) (e et : Bool),
        r.isEmpty = false →
        pydFind? t.strOf s.solution_dict = some sol →
        pydFind? s.metric r = some v →
        (s.on_trial_complete lib t (some r) e et).2.optimizer =
          (lib.complete s.optimizer sol (s.metric_op * v)).2) ∧
    (∀ (s₁ s₂ : ZOOptSearch (List Rat) Unit Unit) (t : TrialId)
        (r : List (String × Rat)) (v : Rat) (e et : Bool),
        s₁.metric_op = -1 → s₂.metric_op = 1 →
        s₁.optimizer = [] → s₂.optimizer = [] →
        s₁.metric = s₂.metric → s₁.solution_dict = s₂.solution_dict →
        r.isEmpty = false →
        pydFind? t.strOf s₁.solution_dict = some () →
        pydFind? s₁.metric r = some v →
        (s₁.on_trial_complete recLib t (some r) e et).2.optimizer = [-v] ∧
        (s₂.on_trial_complete recLib t (some r) e et).2.optimizer = [v]) := by
  refine ⟨?_, ?_, ?_, ?_⟩
  · intro mkOpt algo budget dd mc metric ue s h
    unfold ZOOptSearch.init at h
    repeat' split at h
    all_goals simp_all
    all_goals subst h
    all_goals rfl
  · intro mkOpt algo budget dd mc metric ue s h
    unfold ZOOptSearch.init at h
    repeat' split at h
    all_goals simp_all
    all_goals subst h
    all_goals rfl
  · intro lib s t r sol v e et hre hsol hv
    exact on_trial_complete_optimizer_eq lib s t r sol v e et hre hsol hv
  · intro s₁ s₂ t r v e et h1 h2 ho1 ho2 hm hsd hre hsol hv
    constructor
    · rw [on_trial_complete_optimizer_eq recLib s₁ t r () v e et hre hsol hv]
      simp [recLib, ho1, h1]
    · have hsol2 : pydFind? t.strOf s₂.solution_dict = some () := by
        rw [← hsd]
        exact hsol
      have hv2 : pydFind? s₂.metric r = some v := by
        rw [← hm]
        exact hv
      rw [on_trial_complete_optimizer_eq recLib s₂ t r () v e et hre hsol2 hv2]
      simp [recLib, ho2, h2]

/-- Witness for C3: the sign at construction for both modes, the signed score
of a concrete completion, and the negated recorded scores `[-3]` and `[3]` of
the max/min adapter pair. -/
theorem c3_metric_sign_witness :
    sInitMax.metric_op = -1 ∧
    sInitMin.metric_op = 1 ∧
    (sOneLive.on_trial_complete natLib (.int 0) (some [("m", 2)])
        false false).2.optimizer =
      (natLib.complete sOneLive.optimizer 0 (sOneLive.metric_op * 2)).2 ∧
    (sMax.on_trial_complete recLib (.int 0) (some [("m", 3)])
        false false).2.optimizer = [-3] ∧
    (sMin.on_trial_complete recLib (.int 0) (some [("m", 3)])
        false false).2.optimizer = [3] :=
  ⟨(c3_metric_sign Nat Nat Nat Nat).1 mkOptNat (some "asracos") (some 5) (some [("x", 0)]) 2 "m"
      false sInitMax rfl,
   (c3_metric_sign Nat Nat Nat Nat).2.1 mkOptNat (some "asracos") (some 5) (some [("x", 0)]) 2 "m"
      false sInitMin rfl,
   (c3_metric_sign Nat Nat Nat Nat).2.2.1 natLib sOneLive (.int 0) [("m", 2)] 0 2 false false
      (by decide) (by decide) (by decide),
   ((c3_metric_sign Nat Nat Nat Nat).2.2.2 sMax sMin (.int 0) [("m", 3)] 3 false false rfl rfl rfl
      rfl rfl rfl (by decide) (by decide) (by decide)).1,
   ((c3_metric_sign Nat Nat Nat Nat).2.2.2 sMax sMin (.int 0) [("m", 3)] 3 false false rfl rfl rfl
      rfl rfl rfl (by decide) (by decide) (by decide)).2⟩

theorem map_fst_zip_sublist {κ : Type u} {β : Type v} :
    ∀ (ks : List κ) (xs : List β), ((ks.zip xs).map Prod.fst).Sublist ks
  | [], _ => by simp
  | _ :: _, [] => by simp
  | k :: ks, x :: xs => by
    simpa using (map_fst_zip_sublist ks xs).cons₂ k

/-- C4: the configuration a successful `suggest` returns is exactly the
Python dict built by zipping the dimension names, in declaration order,
against the solution's coordinate vector: `init` fixes `dim_keys` to the
dim-dict's keys in declaration order; `suggest` returns
`dict(zip(dim_keys, solution.get_x()))`, in which (for the distinct keys a
dict has) the i-th declared name is bound to the i-th coordinate; and
neither `suggest` nor `on_trial_complete` ever changes `dim_keys`, so the
order fixed at construction is used unchanged for the adapter's lifetime. -/
theorem c4_positional_zip (σ : Type u) (Sol : Type v) (V : Type w) (Dim : Type u) :
    (∀ (mkOpt : List Dim → Int → σ) (algo : Option String) (budget : Option Int)
        (dd : List (String × Dim)) (mc : Int) (metric mode : String) (ue : Bool)
        (s : ZOOptSearch σ Sol V),
        ZOOptSearch.init mkOpt algo budget (some dd) mc metric mode ue = .ok s →
        s.dim_keys = dd.map Prod.fst) ∧
    (∀ (lib : ZooptLib σ Sol V) (s : ZOOptSearch σ Sol V) (t : TrialId)
        (sol : Sol) (opt' : σ),
        ¬ ((s.num_live_trials : Int) ≥ s.max_concurrent) →
        lib.suggest s.optimizer = (some sol, opt') →
        (s.suggest lib t).1 = some (pydOfList (s.dim_keys.zip (lib.solX sol)))) ∧
    (∀ (ks : List String) (xs : List V) (i : Nat) (hk : i < ks.length)
        (hx : i < xs.length), ks.Nodup →
        pydFind? (ks.get ⟨i, hk⟩) (pydOfList (ks.zip xs)) =
          some (xs.get ⟨i, hx⟩)) ∧
    (∀ (lib : ZooptLib σ Sol V) (s : ZOOptSearch σ Sol V) (t : TrialId),
        (s.suggest lib t).2.dim_keys = s.dim_keys) ∧
    (∀ (lib : ZooptLib σ Sol V) (s : ZOOptSearch σ Sol V) (t : TrialId)
        (result : Option (List (String × Rat))) (e et : Bool),
        (s.on_trial_complete lib t result e et).2.dim_keys = s.dim_keys) := by
  refine ⟨?_, ?_, ?_, ?_, ?_⟩
  · intro mkOpt algo budget dd mc metric mode ue s h
    unfold ZOOptSearch.init at h
    repeat' split at h
    all_goals simp_all
    all_goals subst h
    all_goals rfl
  · intro lib s t sol opt' hcap hlib
    unfold ZOOptSearch.suggest
    rw [if_neg hcap, hlib]
  · intro ks xs i hk hx hnd
    rw [pydOfList_nodup]
    · exact pydFind?_zip_get ks xs i hk hx hnd
    · exact ((map_fst_zip_sublist ks xs).nodup hnd)
  · intro lib s t
    exact (suggest_frame lib s t).2.1
  · intro lib s t result e et
    have hdel : ∀ (x : ZOOptSearch σ Sol V), (x.delLive t).2.dim_keys = x.dim_keys :=
      fun x => delLive_dim_keys x t
    cases result with
    | none => exact hdel s
    | some r =>
      cases hre : r.isEmpty with
      | true =>
        simp only [ZOOptSearch.on_trial_complete, hre, if_true]
        exact hdel s
      | false =>
        cases hsol : pydFind? t.strOf s.solution_dict with
        | none =>
          simp [ZOOptSearch.on_trial_complete, hre, hsol]
        | some sol =>
          cases hv : pydFind? s.metric r with
          | none =>
            simp [ZOOptSearch.on_trial_complete, hre, hsol, hv]
          | some v =>
            rcases hc : lib.complete s.optimizer sol (s.metric_op * v) with ⟨best?, opt'⟩
            cases best? <;>
            · simp only [ZOOptSearch.on_trial_complete, hre, Bool.false_eq_true,
                if_false, hsol, hv, hc]
              exact hdel _

/-- Witness for C4: `init` fixes `dim_keys := ["x"]` from the dim dict, a
concrete `suggest` returns the zipped dict, the positional lookup on a
two-key dict, and `dim_keys` preservation across concrete calls. -/
theorem c4_positional_zip_witness :
    sInitMin.dim_keys = ([("x", (0 : Nat))] : List (String × Nat)).map Prod.fst ∧
    (sTwo.suggest natLib (.int 0)).1 =
      some (pydOfList (sTwo.dim_keys.zip (natLib.solX 0))) ∧
    pydFind? "b" (pydOfList ((["a", "b"] : List String).zip ([7, 9] : List Nat))) =
      some 9 ∧
    (sTwo.suggest natLib (.int 0)).2.dim_keys = sTwo.dim_keys ∧
    (sOneLive.on_trial_complete natLib (.int 0) (some [("m", 2)])
        false false).2.dim_keys = sOneLive.dim_keys :=
  ⟨(c4_positional_zip Nat Nat Nat Nat).1 mkOptNat (some "asracos") (some 5)
      [("x", 0)] 2 "m" "min" false sInitMin rfl,
   (c4_positional_zip Nat Nat Nat Nat).2.1 natLib sTwo (.int 0) 0 1
      (by decide) rfl,
   (c4_positional_zip Nat Nat Nat Nat).2.2.1 ["a", "b"] [7, 9] 1
      (by decide) (by decide) (by decide),
   (c4_positional_zip Nat Nat Nat Nat).2.2.2.1 natLib sTwo (.int 0),
   (c4_positional_zip Nat Nat Nat Nat).2.2.2.2 natLib sOneLive (.int 0)
      (some [("m", 2)]) false false⟩

/-- C7: construction succeeds exactly when the budget and dim dict are
present, the concurrency cap is a positive integer, the mode is "min" or
"max", and the algorithm name is present with lowercase form in the
allow-list \x7b"asracos", "sracos"\x7d; in every other case `init` raises
synchronously, and it does so before any optimizer is built: a failing
construction returns the same error for every optimizer constructor. -/
theorem c7_ctor_validation (σ : Type u) (Sol : Type v) (V : Type w) (Dim : Type u) :
    ∀ (mkOpt mkOpt2 : List Dim → Int → σ) (algo : Option String)
      (budget : Option Int) (dd : Option (List (String × Dim))) (mc : Int)
      (metric mode : String) (ue : Bool),
      ((∃ s : ZOOptSearch σ Sol V,
          ZOOptSearch.init mkOpt algo budget dd mc metric mode ue = .ok s) ↔
        (budget ≠ none ∧ dd ≠ none ∧ 0 < mc ∧ (mode = "min" ∨ mode = "max") ∧
          ∃ a, algo = some a ∧
            (pyLower a = "asracos" ∨ pyLower a = "sracos"))) ∧
      (∀ er : InitErr,
        (ZOOptSearch.init mkOpt algo budget dd mc metric mode ue :
            Except InitErr (ZOOptSearch σ Sol V)) = .error er →
        (ZOOptSearch.init mkOpt2 algo budget dd mc metric mode ue :
            Except InitErr (ZOOptSearch σ Sol V)) = .error er) := by
  intro mkOpt mkOpt2 algo budget dd mc metric mode ue
  constructor
  · constructor
    · rintro ⟨s, hs⟩
      by_cases hb : budget = none
      · simp [ZOOptSearch.init, hb] at hs
      by_cases hd : dd.isNone
      · simp [ZOOptSearch.init, hb, hd] at hs
      by_cases hmc : mc ≤ 0
      · simp [ZOOptSearch.init, hb, hd, hmc] at hs
      by_cases hmode : mode = "min" ∨ mode = "max"
      · cases algo with
        | none => simp [ZOOptSearch.init, hb, hd, hmc, hmode] at hs
        | some a =>
          by_cases halg : pyLower a = "asracos" ∨ pyLower a = "sracos"
          · exact ⟨hb, fun hh => hd (by simp [hh]), not_le.mp hmc, hmode,
              a, rfl, halg⟩
          · simp [ZOOptSearch.init, hb, hd, hmc, hmode, halg] at hs
      · simp [ZOOptSearch.init, hb, hd, hmc, hmode] at hs
    · rintro ⟨hb, hd, hmc, hmode, a, rfl, halg⟩
      obtain ⟨b, rfl⟩ := Option.ne_none_iff_exists'.mp hb
      obtain ⟨d, rfl⟩ := Option.ne_none_iff_exists'.mp hd
      rcases hres : (ZOOptSearch.init mkOpt (some a) (some b) (some d) mc metric
          mode ue : Except InitErr (ZOOptSearch σ Sol V)) with er | s'
      · simp [ZOOptSearch.init, not_le.mpr hmc, hmode, halg] at hres
      · exact ⟨s', rfl⟩
  · intro er her
    by_cases hb : budget = none
    · simp only [ZOOptSearch.init, hb, if_pos] at her ⊢
      simp at her ⊢
      exact her
    by_cases hd : dd.isNone
    · simp [ZOOptSearch.init, hb, hd] at her ⊢
      exact her
    by_cases hmc : mc ≤ 0
    · simp [ZOOptSearch.init, hb, hd, hmc] at her ⊢
      exact her
    by_cases hmode : mode = "min" ∨ mode = "max"
    · cases algo with
      | none =>
        simp [ZOOptSearch.init, hb, hd, hmc, hmode] at her ⊢
        exact her
      | some a =>
        by_cases halg : pyLower a = "asracos" ∨ pyLower a = "sracos"
        · obtain ⟨b, rfl⟩ := Option.ne_none_iff_exists'.mp hb
          cases dd with
          | none => simp at hd
          | some d => simp [ZOOptSearch.init, hmc, hmode, halg] at her
        · simp [ZOOptSearch.init, hb, hd, hmc, hmode, halg] at her ⊢
          exact her
    · simp [ZOOptSearch.init, hb, hd, hmc, hmode] at her ⊢
      exact her

/-- Witness for C7: construction with a missing budget fails with the
assertion error under both optimizer constructors. -/
theorem c7_ctor_validation_witness :
    ((ZOOptSearch.init mkOptNat (some "asracos") none (some [("x", (0 : Nat))])
        2 "m" "min" false : Except InitErr (ZOOptSearch Nat Nat Nat)) =
      .error .assertionError) ∧
    ((ZOOptSearch.init mkOptNat' (some "asracos") none (some [("x", (0 : Nat))])
        2 "m" "min" false : Except InitErr (ZOOptSearch Nat Nat Nat)) =
      .error .assertionError) :=
  ⟨rfl,
   (c7_ctor_validation Nat Nat Nat Nat mkOptNat mkOptNat' (some "asracos") none
      (some [("x", 0)]) 2 "m" "min" false).2 .assertionError rfl⟩

/-- C9: `restore` wholesale replaces the adapter's optimizer reference with
the deserialized blob; `save` then `restore` on the same path hands back
exactly the pre-save adapter (the full optimizer state round-trips, pickling
being modelled as faithful whole-object serialization); and hence the
restored adapter produces the same subsequent suggestion sequence as the
pre-save instance for every (deterministic, as all functions here are)
wrapped optimizer. -/
theorem c9_save_restore_roundtrip (σ : Type u) (Sol : Type v) (V : Type w) :
    (∀ (s : ZOOptSearch σ Sol V) (fs : String → Option σ) (path : String) (o : σ),
        fs path = some o → s.restore fs path = some { s with optimizer := o }) ∧
    (∀ (s : ZOOptSearch σ Sol V) (fs : String → Option σ) (path : String),
        s.restore (s.save fs path) path = some s) ∧
    (∀ (lib : ZooptLib σ Sol V) (s s₂ : ZOOptSearch σ Sol V)
        (fs : String → Option σ) (path : String) (ts : List TrialId),
        s.restore (s.save fs path) path = some s₂ →
        s₂.suggestSeq lib ts = s.suggestSeq lib ts) := by
  have hround : ∀ (s : ZOOptSearch σ Sol V) (fs : String → Option σ)
      (path : String), s.restore (s.save fs path) path = some s := by
    intro s fs path
    unfold ZOOptSearch.restore ZOOptSearch.save
    simp
  refine ⟨?_, hround, ?_⟩
  · intro s fs path o h
    unfold ZOOptSearch.restore
    rw [h]
    rfl
  · intro lib s s₂ fs path ts h
    rw [hround s fs path] at h
    rw [(Option.some_inj.mp h).symm]

/-- Witness for C9: a concrete restore replaces the optimizer with the
stored blob, the concrete round-trip returns the adapter unchanged, and the
round-tripped adapter yields the same suggestion sequence. -/
theorem c9_save_restore_roundtrip_witness :
    sTwo.restore fsOne "ckpt" = some { sTwo with optimizer := 42 } ∧
    sTwo.restore (sTwo.save fsOne "p") "p" = some sTwo ∧
    sTwo.suggestSeq natLib [TrialId.int 0, TrialId.int 1, TrialId.int 2] =
      sTwo.suggestSeq natLib [TrialId.int 0, TrialId.int 1, TrialId.int 2] :=
  ⟨(c9_save_restore_roundtrip Nat Nat Nat).1 sTwo fsOne "ckpt" 42 rfl,
   (c9_save_restore_roundtrip Nat Nat Nat).2.1 sTwo fsOne "p",
   (c9_save_restore_roundtrip Nat Nat Nat).2.2 natLib sTwo sTwo fsOne "p"
      [TrialId.int 0, TrialId.int 1, TrialId.int 2]
      ((c9_save_restore_roundtrip Nat Nat Nat).2.1 sTwo fsOne "p")⟩

/-- C10: the two stores key the same trial differently — `suggest` records
the solution under `str(trial_id)` but the configuration and the capacity
count under the raw `trial_id`.  For two distinct identifiers with equal
string forms (`int 1` and `str "1"`): suggesting both yields two distinct
live trials (live count rises by 2, each with its own configuration), yet
one shared `solution_dict` slot holding the second trial's solution; and
completing the FIRST trial with a present result feeds the optimizer's
`complete` the SECOND trial's solution handle. -/
theorem c10_str_key_collision (σ : Type u) (Sol : Type v) (V : Type w) :
    ∀ (lib : ZooptLib σ Sol V) (s s₁ s₂ : ZOOptSearch σ Sol V)
      (t₁ t₂ : TrialId) (sol₁ sol₂ : Sol) (opt₁ opt₂ : σ)
      (c₁ c₂ : List (String × V)) (r : List (String × Rat)) (v : Rat)
      (e et : Bool),
      t₁ ≠ t₂ → t₁.strOf = t₂.strOf →
      pydFind? t₁ s.live_trial_mapping = none →
      pydFind? t₂ s.live_trial_mapping = none →
      lib.suggest s.optimizer = (some sol₁, opt₁) →
      lib.suggest opt₁ = (some sol₂, opt₂) →
      s.suggest lib t₁ = (some c₁, s₁) →
      s₁.suggest lib t₂ = (some c₂, s₂) →
      r.isEmpty = false →
      pydFind? s₂.metric r = some v →
      ((pydFind? t₁ s₂.live_trial_mapping = some c₁ ∧
        pydFind? t₂ s₂.live_trial_mapping = some c₂ ∧
        s₂.num_live_trials = s.num_live_trials + 2) ∧
       pydFind? t₁.strOf s₂.solution_dict = some sol₂ ∧
       (s₂.on_trial_complete lib t₁ (some r) e et).2.optimizer =
         (lib.complete s₂.optimizer sol₂ (s₂.metric_op * v)).2) := by
  intro lib s s₁ s₂ t₁ t₂ sol₁ sol₂ opt₁ opt₂ c₁ c₂ r v e et
    hne hstr hf1 hf2 hl1 hl2 hs1 hs2 hre hv
  obtain ⟨hcap1, sol₁', o₁', hl1', hc1, hs₁eq⟩ := suggest_some_inv lib s t₁ c₁ s₁ hs1
  rw [hl1] at hl1'
  simp only [Prod.mk.injEq, Option.some.injEq] at hl1'
  obtain ⟨rfl, rfl⟩ := hl1'
  subst hs₁eq
  obtain ⟨hcap2, sol₂', o₂', hl2', hc2, hs₂eq⟩ := suggest_some_inv lib _ t₂ c₂ s₂ hs2
  rw [show ({ s with
        optimizer := opt₁
        solution_dict := pydInsert t₁.strOf sol₁ s.solution_dict
        live_trial_mapping :=
          pydInsert t₁ c₁ s.live_trial_mapping } : ZOOptSearch σ Sol V).optimizer
      = opt₁ from rfl, hl2] at hl2'
  simp only [Prod.mk.injEq, Option.some.injEq] at hl2'
  obtain ⟨rfl, rfl⟩ := hl2'
  subst hs₂eq
  have hne' : ¬ t₂ = t₁ := fun hh => hne hh.symm
  have hsol2 : pydFind? t₁.strOf
      (pydInsert t₂.strOf sol₂
        (pydInsert t₁.strOf sol₁ s.solution_dict)) = some sol₂ := by
    rw [pydFind?_insert, if_pos hstr.symm]
  refine ⟨⟨?_, ?_, ?_⟩, hsol2, ?_⟩
  · rw [pydFind?_insert, if_neg hne', pydFind?_insert, if_pos rfl]
  · rw [pydFind?_insert, if_pos rfl]
  · simp [ZOOptSearch.num_live_trials, pydInsert_length, pydFind?_insert,
      hf1, hf2, hne]
  · exact on_trial_complete_optimizer_eq lib _ t₁ r sol₂ v e et hre hsol2 hv

/-- Witness for C10 at the concrete colliding identifiers `int 1` and
`str "1"`: both are live with their own configurations after the two
suggestions, the shared solution slot "1" holds the second solution, and
completing `int 1` feeds the optimizer the second trial's solution. -/
theorem c10_str_key_collision_witness :
    (pydFind? (TrialId.int 1) sColl2.live_trial_mapping =
        some [("h", 0), ("w", 1)] ∧
      pydFind? (TrialId.str "1") sColl2.live_trial_mapping =
        some [("h", 1), ("w", 2)] ∧
      sColl2.num_live_trials = sColl0.num_live_trials + 2) ∧
    pydFind? (TrialId.int 1).strOf sColl2.solution_dict = some 1 ∧
    (sColl2.on_trial_complete natLib (.int 1) (some [("m", 3)])
        false false).2.optimizer =
      (natLib.complete sColl2.optimizer 1 (sColl2.metric_op * 3)).2 :=
  c10_str_key_collision Nat Nat Nat natLib sColl0 sColl1 sColl2 (.int 1)
    (.str "1") 0 1 1 2 [("h", 0), ("w", 1)] [("h", 1), ("w", 2)] [("m", 3)] 3
    false false (by decide) rfl rfl rfl rfl rfl (by decide) (by decide) rfl
    (by decide)
